import Mathlib

/-!
Shallow embedding of `src/handler/CloudFront/imageResizer.ts`, a CloudFront
Lambda@Edge origin-response handler that resizes images on the fly.

External collaborators — the S3 client, the `buffer-image-size` probe, the
Sharp codec and the JavaScript timer queue — are modelled as oracle inputs
to the pipeline.  Everything the handler itself computes (URI decoding,
path parsing, the lookup tables, the branching logic, base64 encoding,
the response envelopes, the scheduling of the timeout) is translated
directly from the source.  Bodies are byte sequences (`List Nat`, each
entry < 256 in practice); strings are Lean `String`s.
-/

namespace ImageResizer

/-! ### URI decoding (JavaScript `decodeURIComponent` / `decodeURI`) -/

/-- Value of a hexadecimal digit, case-insensitive, as in JS percent-decoding. -/
def hexDigit (c : Char) : Option Nat :=
  if '0' ≤ c ∧ c ≤ '9' then some (c.toNat - '0'.toNat)
  else if 'a' ≤ c ∧ c ≤ 'f' then some (c.toNat - 'a'.toNat + 10)
  else if 'A' ≤ c ∧ c ≤ 'F' then some (c.toNat - 'A'.toNat + 10)
  else none

/-- Characters whose percent-escapes `decodeURI` leaves intact
(the URI reserved set `;/?:@&=+$,#`). -/
def uriReserved (c : Char) : Bool :=
  c = ';' || c = '/' || c = '?' || c = ':' || c = '@' || c = '&' ||
  c = '=' || c = '+' || c = '$' || c = ',' || c = '#'

/-- Percent-decoding over a character list.  `keep c = true` means the escape
for `c` is left undecoded (used by `decodeURI` for reserved characters).
Malformed escapes are left in place (JS would throw `URIError`; no claim
exercises that path, and all inputs used below are well-formed ASCII). -/
def decodePercent (keep : Char → Bool) : List Char → List Char
  | [] => []
  | '%' :: h1 :: h2 :: rest =>
    match hexDigit h1, hexDigit h2 with
    | some a, some b =>
      let c := Char.ofNat (16 * a + b)
      if keep c then '%' :: h1 :: h2 :: decodePercent keep rest
      else c :: decodePercent keep rest
    | _, _ => '%' :: decodePercent keep (h1 :: h2 :: rest)
  | c :: rest => c :: decodePercent keep rest

/-- JS `decodeURIComponent` (decodes every escape). -/
def decodeURIComponentChars (l : List Char) : List Char :=
  decodePercent (fun _ => false) l

/-- JS `decodeURI` (decodes every escape except those of reserved characters). -/
def decodeURIChars (l : List Char) : List Char :=
  decodePercent uriReserved l

/-! ### Node `path.parse` (the `dir` / `base` / `ext` fields the handler uses) -/

/-- Final path segment: the characters after the last `/` (`path.parse(p).base`). -/
def baseChars (l : List Char) : List Char :=
  (l.reverse.takeWhile (fun c => ¬ c = '/')).reverse

/-- Directory part without the trailing slash, except a bare root stays `/`
(`path.parse(p).dir`). -/
def dirChars (l : List Char) : List Char :=
  match l.reverse.drop ((l.reverse.takeWhile (fun c => ¬ c = '/')).length) with
  | [] => []
  | [_] => ['/']
  | _ :: tl => tl.reverse

/-- Extension of the base name, including the dot (`path.parse(p).ext`):
taken from the last dot, empty when there is no dot or the last dot is the
leading character of the base name. -/
def extChars (base : List Char) : List Char :=
  let afterDotRev := base.reverse.takeWhile (fun c => ¬ c = '.')
  if afterDotRev.length = base.length then []
  else if afterDotRev.length + 1 = base.length then []
  else '.' :: afterDotRev.reverse

/-- JS `String.prototype.split` with a single-character separator. -/
def splitOnChar (c : Char) : List Char → List (List Char)
  | [] => [[]]
  | x :: xs =>
    match splitOnChar c xs with
    | [] => [[]]
    | h :: t => if x = c then [] :: h :: t else (x :: h) :: t

/-- JS `String.prototype.replace(sub, '')` for a one-character pattern:
removes the first occurrence only. -/
def removeFirst (c : Char) : List Char → List Char
  | [] => []
  | x :: xs => if x = c then xs else x :: removeFirst c xs

/-! ### base64 (Node `Buffer.prototype.toString('base64')`) -/

/-- The base64 alphabet. -/
def b64Char (n : Nat) : Char :=
  (String.data "ABCDEFGHIJKLMNOPQRSTUVWXYZabcdefghijklmnopqrstuvwxyz0123456789+/").getD n 'A'

/-- Standard base64 encoding of a byte sequence, with `=` padding. -/
def base64Encode : List Nat → List Char
  | a :: b :: c :: rest =>
    b64Char (a / 4) :: b64Char (a % 4 * 16 + b / 16) ::
    b64Char (b % 16 * 4 + c / 64) :: b64Char (c % 64) :: base64Encode rest
  | [a, b] => [b64Char (a / 4), b64Char (a % 4 * 16 + b / 16), b64Char (b % 16 * 4), '=']
  | [a] => [b64Char (a / 4), b64Char (a % 4 * 16), '=', '=']
  | [] => []

/-- A base64 string of `n` bytes has `4 * ceil(n / 3)` characters. -/
theorem base64Encode_length : ∀ l : List Nat, (base64Encode l).length = 4 * ((l.length + 2) / 3)
  | [] => rfl
  | [_] => by simp [base64Encode]
  | [_, _] => by simp [base64Encode]
  | _ :: _ :: _ :: rest => by
    have ih := base64Encode_length rest
    simp only [base64Encode, List.length_cons, ih]
    omega

/-! ### Configuration tables (lines 29-32, 43-77 of the source) -/

/-- Target box of a profile; `none` renders the TypeScript `null`. -/
structure Dim2 where
  x : Option Nat
  y : Option Nat
deriving DecidableEq

/-- The `imageType` profile table (lines 43-64), as a finite lookup. -/
def imageType (s : String) : Option Dim2 :=
  if s = "original" then some ⟨none, none⟩
  else if s = "profile" then some ⟨some 200, some 200⟩
  else if s = "thumbnail" then some ⟨some 300, some 300⟩
  else if s = "miniThumbnail" then some ⟨some 150, some 150⟩
  else if s = "resized" then some ⟨some 1440, some 1440⟩
  else none

/-- The `validType` extension/content-type table (lines 66-74). -/
def validType (s : String) : Option String :=
  if s = "png" then some "image/png"
  else if s = "jpg" then some "image/jpg"
  else if s = "jpeg" then some "image/jpeg"
  else if s = "gif" then some "image/gif"
  else if s = "webp" then some "image/webp"
  else if s = "svg+xml" then some "image/svg+xml"
  else if s = "svg" then some "image/svg+xml"
  else none

def BUCKET_image : String := "ogxyz-image"

def BUCKET_profile : String := "ogxyz-image-profile"

def polyfillHost : String := "https://d4gknzklml.execute-api.us-east-1.amazonaws.com"

/-! ### Request parsing (lines 114-123) -/

/-- The relevant parts of the CloudFront origin-response event: the viewer
request URI and the origin response being post-processed.  Fields of the
cloned origin response that the handler never overwrites (its body, its
remaining headers) are carried through `originStatusDescription` /
`originBody` untouched. -/
structure Event where
  uri : String
  originStatus : String
  originStatusDescription : String
  originBody : String

/-- Line 114: `decodeURIComponent(viewRequest.uri)`. -/
def decodedPathChars (u : String) : List Char :=
  decodeURIComponentChars u.data

/-- `URIPath.base` of the decoded URI. -/
def uriBase (ev : Event) : List Char :=
  baseChars (decodedPathChars ev.uri)

/-- `URIPath.dir` of the decoded URI. -/
def uriDir (ev : Event) : List Char :=
  dirChars (decodedPathChars ev.uri)

/-- Line 116: `pathParse[2]`, the third element of `URIPath.dir.split('/')`
(`none` renders JS `undefined` when the dir has fewer than three segments). -/
def pathSeg2 (ev : Event) : Option String :=
  ((splitOnChar '/' (uriDir ev)).get? 2).map fun l => String.mk l

/-- String interpolation of `pathParse[2]` (JS renders `undefined` as the
string `"undefined"` inside a template literal). -/
def profileStr (ev : Event) : String :=
  (pathSeg2 ev).getD "undefined"

/-- Line 117: `URIPath.ext.replace('.', '').toLowerCase()`.
`Char.toLower` matches JS `toLowerCase` on the ASCII range used here. -/
def extOf (ev : Event) : String :=
  String.mk ((removeFirst '.' (extChars (uriBase ev))).map Char.toLower)

/-- Line 151: `imageType[pathParse[2]]`, with a missing segment looking up
nothing (JS `imageType[undefined]` is `undefined`). -/
def imageTypeLookup (ev : Event) : Option Dim2 :=
  (pathSeg2 ev).bind imageType

/-- Line 175: the S3 key is `decodeURI(URIPath.base)` — the final segment of
the already `decodeURIComponent`-decoded path, decoded a second time. -/
def s3KeyOfUri (u : String) : String :=
  String.mk (decodeURIChars (baseChars (decodeURIComponentChars u.data)))

/-- The final path segment after only the first decode, for comparison. -/
def onceDecodedBase (u : String) : String :=
  String.mk (baseChars (decodeURIComponentChars u.data))

/-- Lines 129, 230, 255: the filename interpolated into the redirect URL,
`decodeURI(URIPath.base)` — the same doubly-decoded expression as the key. -/
def redirectFilenameOfUri (u : String) : String :=
  String.mk (decodeURIChars (baseChars (decodeURIComponentChars u.data)))

def s3Key (ev : Event) : String :=
  s3KeyOfUri ev.uri

/-- Lines 119-123: bucket selection switches on `pathParse[2]`. -/
def bucketName (ev : Event) : String :=
  if pathSeg2 ev = some "profile" then BUCKET_profile else BUCKET_image

/-- The `Location` value built at lines 129, 230 and 255. -/
def redirectLocation (ev : Event) : String :=
  polyfillHost ++ "/prod/image/" ++ profileStr ev ++ "/" ++ redirectFilenameOfUri ev.uri

/-! ### Response envelopes (lines 92-112 and the terminal branches) -/

/-- Outgoing envelope.  `cacheControl`, `contentType` and `location` model the
header keys the handler overwrites on the cloned origin response; headers it
never touches pass through unmodelled.  `bodyEncoding = none` means the field
was not set by the handler (the redirect spreads the cloned origin response,
which has no such field). -/
structure Resp where
  status : String
  statusDescription : String
  cacheControl : String
  contentType : String
  location : Option String
  bodyEncoding : Option String
  body : String
deriving DecidableEq

def maxAgeValue : String := "max-age=31536000"

/-- Lines 139-148 and 150-160 and 176-185 and 198-207: the 404 failure
envelope (`failResponse` with status/body overwritten). -/
def fail404Resp : Resp :=
  { status := "404", statusDescription := "Not Found",
    cacheControl := "no-cache", contentType := "application/json",
    location := none, bodyEncoding := some "text",
    body := "\x7b\"errorCode\":\"404\",\"errorMsg\":\"Not Found\"\x7d" }

/-- Lines 162-172: the 403 unsupported-extension envelope. -/
def fail403Resp : Resp :=
  { status := "403", statusDescription := "Unsupported extension.",
    cacheControl := "no-cache", contentType := "application/json",
    location := none, bodyEncoding := some "text",
    body := "\x7b\"errorCode\":\"403\",\"errorMsg\":\"Unsupported extension.\"\x7d" }

/-- Lines 187-196: the 500 envelope produced when the S3 callback received no
data object (`statusDescription` is set to the empty string there). -/
def fail500NotNormal : Resp :=
  { status := "500", statusDescription := "",
    cacheControl := "no-cache", contentType := "application/json",
    location := none, bodyEncoding := some "text",
    body := "\x7b\"errorCode\":\"500\",\"errorMsg\":\"The file is not normal.\"\x7d" }

/-- The 200 success envelope (`response`, lines 95-98 and 103-107, with body
and content-type filled in by the delivering branch). -/
def okResp (ct : String) (b64 : String) : Resp :=
  { status := "200", statusDescription := "OK",
    cacheControl := maxAgeValue, contentType := ct,
    location := none, bodyEncoding := some "base64", body := b64 }

/-- The 302 envelope built by the timeout handler (lines 126-134) and by both
size-limit branches (lines 227-234 and 252-259): `responseSuccessHeader` with
status `302`, a `Location` header, and everything else — in particular the
`Cache-Control: max-age=31536000` set at line 97 and the empty `Content-Type`
set at line 98 — kept from the success header set. -/
def redirectResp (ev : Event) : Resp :=
  { status := "302", statusDescription := "Found",
    cacheControl := maxAgeValue, contentType := "",
    location := some (redirectLocation ev),
    bodyEncoding := none, body := ev.originBody }

/-- The envelope the `setTimeout` callback would deliver (lines 126-134);
identical in construction to the size-limit redirects. -/
def timerRedirect (ev : Event) : Resp :=
  redirectResp ev

/-! ### Oracles for the external collaborators -/

/-- Result of `sizeOf(data.Body)` (the `buffer-image-size` probe):
`width`/`height`/`typ` model `size.width` / `size.height` / `size.type`. -/
structure ImgSize where
  width : Nat
  height : Nat
  typ : String
deriving DecidableEq

/-- What the S3 `getObject` callback received.  `err404` is `err` with
`statusCode === 404`; `noData` covers every other case with no `data` object
(including non-404 errors, where the SDK passes no data); `dataNoBody` is a
`data` object without a `Body`; `dataBody` carries the object bytes. -/
inductive S3Result where
  | err404
  | noData
  | dataNoBody
  | dataBody (b : List Nat)
deriving DecidableEq

/-- Outcome of the Sharp promise: resized bytes, or a rejection (its `.catch`
forwards the error to `callback(error)`). -/
inductive SharpResult where
  | ok (bytes : List Nat)
  | err
deriving DecidableEq

structure Oracles where
  s3 : S3Result
  probe : Option ImgSize
  sharp : SharpResult

/-- Arguments of the Sharp invocation at lines 242-247: input bytes, the
profile's target box passed to `.resize(x, y, fit: inside)`, and the
`animated: ['gif','webp'].includes(ext)` flag. -/
structure SharpArgs where
  input : List Nat
  x : Option Nat
  y : Option Nat
  animated : Bool
deriving DecidableEq

/-- What the handler delivered through `callback`: a response envelope, or an
error surfaced to the runtime (`callback(error)` on an S3 throw or a Sharp
rejection). -/
inductive Delivered where
  | res (r : Resp)
  | errSurfaced
deriving DecidableEq

/-- Result of one run: the delivered envelope, whether/how Sharp was invoked,
and the `(Bucket, Key)` passed to `S3.getObject` when the fetch was reached. -/
structure Outcome where
  delivered : Delivered
  sharpCall : Option SharpArgs
  s3Call : Option (String × String)
deriving DecidableEq

/-! ### The decision pipeline (lines 137-271) -/

/-- Line 225, `imageType[...].x! > size.width` (and `y`): the TypeScript `!`
assertion does not change the runtime value, so for the `original` profile the
comparison is JS `null > width`, which coerces `null` to `0` and is false for
every natural `width`. -/
def optGT (t : Option Nat) (v : Nat) : Bool :=
  match t with
  | none => false
  | some x => decide (v < x)

/-- Line 225: `size && size.type === 'webp' && (x! > size.width || y! > size.height)`. -/
def bypassCond (probeRes : Option ImgSize) (prof : Dim2) : Bool :=
  match probeRes with
  | some sz => sz.typ == "webp" && (optGT prof.x sz.width || optGT prof.y sz.height)
  | none => false

def sharpArgsOf (prof : Dim2) (b : List Nat) (ext : String) : SharpArgs :=
  ⟨b, prof.x, prof.y, ext == "gif" || ext == "webp"⟩

/-- Lines 248-268: the Sharp continuation.  Line 252 compares the length of
`resizedImage.toString('base64')` — the base64 string, not the raw bytes —
against `1024 * 1024`. -/
def sharpStage (ev : Event) (args : SharpArgs) : SharpResult → Outcome
  | .err => ⟨.errSurfaced, some args, some (bucketName ev, s3Key ev)⟩
  | .ok rb =>
    if (base64Encode rb).length > 1024 * 1024 then
      ⟨.res (redirectResp ev), some args, some (bucketName ev, s3Key ev)⟩
    else
      ⟨.res (okResp "image/webp" (String.mk (base64Encode rb))), some args,
        some (bucketName ev, s3Key ev)⟩

/-- Lines 209-270: the branch on the extension once a body is present.
Only the literal `'svg'` case takes the vector pass-through; every other
supported extension (including `svg+xml`) is probed.  Line 227 compares
`data.Body.length` — the raw byte count — against `1024 * 1024`. -/
def bodyStage (ev : Event) (prof : Dim2) (o : Oracles) (b : List Nat) : Outcome :=
  if extOf ev = "svg" then
    ⟨.res (okResp "image/svg+xml" (String.mk (base64Encode b))), none,
      some (bucketName ev, s3Key ev)⟩
  else if bypassCond o.probe prof then
    if b.length > 1024 * 1024 then
      ⟨.res (redirectResp ev), none, some (bucketName ev, s3Key ev)⟩
    else
      ⟨.res (okResp "image/webp" (String.mk (base64Encode b))), none,
        some (bucketName ev, s3Key ev)⟩
  else
    sharpStage ev (sharpArgsOf prof b (extOf ev)) o.sharp

/-- Lines 176-207: the S3 callback's error/data checks, in source order. -/
def s3Stage (ev : Event) (prof : Dim2) (o : Oracles) : Outcome :=
  match o.s3 with
  | .err404 => ⟨.res fail404Resp, none, some (bucketName ev, s3Key ev)⟩
  | .noData => ⟨.res fail500NotNormal, none, some (bucketName ev, s3Key ev)⟩
  | .dataNoBody => ⟨.res fail404Resp, none, some (bucketName ev, s3Key ev)⟩
  | .dataBody b => bodyStage ev prof o b

/-- The whole pipeline (lines 137-271): upstream-404 check, profile check,
extension check, then the fetch and its continuation. -/
def handlerRun (ev : Event) (o : Oracles) : Outcome :=
  if ev.originStatus = "404" then ⟨.res fail404Resp, none, none⟩
  else
    match imageTypeLookup ev with
    | none => ⟨.res fail404Resp, none, none⟩
    | some prof =>
      match validType (extOf ev) with
      | none => ⟨.res fail403Resp, none, none⟩
      | some _ => s3Stage ev prof o

/-! ### The deadline timer (lines 125-134 and 276-278) -/

/-- Scheduling-relevant effects of the handler's synchronous body. -/
inductive SyncEffect where
  | setTimer (delayMs : Nat)
  | registerS3Callback
  | clearTimer
deriving DecidableEq

/-- The effects in source/execution order: `setTimeout(…, 5 * 1000)` at
line 126, `S3.getObject(…, callback)` at line 175 (which only registers the
callback and returns), and `clearTimeout(timer)` in the `finally` block at
line 277 — which runs when the synchronous body finishes, i.e. before the
event loop can dispatch any timer or I/O callback. -/
def handlerSyncEffects : List SyncEffect :=
  [.setTimer (5 * 1000), .registerS3Callback, .clearTimer]

/-- Whether a timer is still pending once the synchronous body has finished. -/
def timerPending (effs : List SyncEffect) : Bool :=
  effs.foldl
    (fun acc e =>
      match e with
      | .setTimer _ => true
      | .clearTimer => false
      | .registerS3Callback => acc)
    false

/-- JavaScript run-to-completion semantics: callbacks run only after the
synchronous body (including its `finally`) has finished.  The timer fires at
5000 ms only if it is still pending then; the pipeline's own callbacks
complete at `pipelineMs`.  Whichever is due first delivers the response. -/
def deliveredEnvelope (ev : Event) (o : Oracles) (pipelineMs : Nat) : Delivered :=
  if timerPending handlerSyncEffects = true ∧ 5 * 1000 < pipelineMs then
    .res (timerRedirect ev)
  else
    (handlerRun ev o).delivered

/-! ### Stage-navigation lemmas -/

theorem handlerRun_reach (ev : Event) (o : Oracles) (prof : Dim2)
    (h1 : ¬ ev.originStatus = "404") (h2 : imageTypeLookup ev = some prof)
    (h3 : (validType (extOf ev)).isSome) :
    handlerRun ev o = s3Stage ev prof o := by
  obtain ⟨ct, hct⟩ := Option.isSome_iff_exists.mp h3
  unfold handlerRun
  rw [if_neg h1, h2, hct]

theorem s3Stage_dataBody (ev : Event) (prof : Dim2) (o : Oracles) (b : List Nat)
    (h : o.s3 = .dataBody b) : s3Stage ev prof o = bodyStage ev prof o b := by
  unfold s3Stage
  rw [h]

theorem bodyStage_svg (ev : Event) (prof : Dim2) (o : Oracles) (b : List Nat)
    (h : extOf ev = "svg") :
    bodyStage ev prof o b =
      ⟨.res (okResp "image/svg+xml" (String.mk (base64Encode b))), none,
        some (bucketName ev, s3Key ev)⟩ := by
  unfold bodyStage
  rw [if_pos h]

theorem bodyStage_bypass_over (ev : Event) (prof : Dim2) (o : Oracles) (b : List Nat)
    (h : ¬ extOf ev = "svg") (hb : bypassCond o.probe prof = true)
    (hlen : b.length > 1024 * 1024) :
    bodyStage ev prof o b =
      ⟨.res (redirectResp ev), none, some (bucketName ev, s3Key ev)⟩ := by
  simp [bodyStage, h, hb, hlen]

theorem bodyStage_bypass_under (ev : Event) (prof : Dim2) (o : Oracles) (b : List Nat)
    (h : ¬ extOf ev = "svg") (hb : bypassCond o.probe prof = true)
    (hlen : ¬ b.length > 1024 * 1024) :
    bodyStage ev prof o b =
      ⟨.res (okResp "image/webp" (String.mk (base64Encode b))), none,
        some (bucketName ev, s3Key ev)⟩ := by
  simp [bodyStage, h, hb, hlen]

theorem bodyStage_noBypass (ev : Event) (prof : Dim2) (o : Oracles) (b : List Nat)
    (h : ¬ extOf ev = "svg") (hb : bypassCond o.probe prof = false) :
    bodyStage ev prof o b = sharpStage ev (sharpArgsOf prof b (extOf ev)) o.sharp := by
  simp [bodyStage, h, hb]

theorem sharpStage_ok_over (ev : Event) (args : SharpArgs) (rb : List Nat)
    (hlen : (base64Encode rb).length > 1024 * 1024) :
    sharpStage ev args (.ok rb) =
      ⟨.res (redirectResp ev), some args, some (bucketName ev, s3Key ev)⟩ := by
  simp [sharpStage, hlen]

theorem sharpStage_ok_under (ev : Event) (args : SharpArgs) (rb : List Nat)
    (hlen : ¬ (base64Encode rb).length > 1024 * 1024) :
    sharpStage ev args (.ok rb) =
      ⟨.res (okResp "image/webp" (String.mk (base64Encode rb))), some args,
        some (bucketName ev, s3Key ev)⟩ := by
  simp [sharpStage, hlen]

theorem bypassCond_nullTargets (pr : Option ImgSize) : bypassCond pr ⟨none, none⟩ = false := by
  cases pr <;> simp [bypassCond, optGT]

theorem okResp_ne_redirect (ct s : String) (ev : Event) :
    ¬ Delivered.res (okResp ct s) = .res (redirectResp ev) := by
  simp [okResp, redirectResp]

/-! ### Concrete inputs used below -/

def evC2 : Event := ⟨"/image/original/a.svg", "200", "OK", ""⟩

def oC2 : Oracles := ⟨.dataBody [104, 105], none, .err⟩

def evC5w : Event := ⟨"/image/original/b.svg", "200", "OK", ""⟩

def oC5w : Oracles := ⟨.dataBody [60, 115], none, .err⟩

def evC5 : Event := ⟨"/image/original/a.svg+xml", "200", "OK", ""⟩

def oC5 : Oracles := ⟨.dataBody [1], none, .ok [2]⟩

def evC6w : Event := ⟨"/image/original/c.png", "200", "OK", ""⟩

def evC6 : Event := ⟨"/image/original/a.png", "200", "OK", ""⟩

def oC6 : Oracles := ⟨.dataNoBody, none, .err⟩

def evC7w : Event := ⟨"/image/unknownprofile/x.png", "200", "OK", ""⟩

def oC7w : Oracles := ⟨.dataBody [1], none, .ok [1]⟩

def evC8w : Event := ⟨"/image/original/picture.bmp", "200", "OK", ""⟩

def oC8w : Oracles := ⟨.dataBody [1], none, .ok [1]⟩

def evC10 : Event := ⟨"/image/profile/a%2520b.png", "200", "OK", ""⟩

def oC10 : Oracles := ⟨.err404, none, .err⟩

/-! ### Claims -/

/-- C2: the spec says the pipeline races a 5000 ms timer and that a pipeline
exceeding the deadline yields the 302 redirect, the timer being cleared only
once the pipeline completes.  In the code the `clearTimeout` sits in the
`finally` block of the synchronous body, which finishes before the event loop
can dispatch any callback, so the timer is already cancelled by the time it
could fire: even a pipeline completing at 10000 ms delivers its own envelope
and the deadline redirect is never delivered. -/
theorem C2_deadline_dead_timer :
    timerPending handlerSyncEffects = false ∧
    deliveredEnvelope evC2 oC2 10000 =
      .res (okResp "image/svg+xml" (String.mk (base64Encode [104, 105]))) ∧
    ¬ deliveredEnvelope evC2 oC2 10000 = .res (timerRedirect evC2) := by decide

/-- C5 (amended): both `svg` and `svg+xml` are in the supported-extension
table and map to `image/svg+xml`, but only a request whose extension is
exactly `svg` takes the vector pass-through — 200, base64-encoded original
bytes, content-type `image/svg+xml`, no probe and no resize.  A `svg+xml`
request falls into the raster branch instead (see the counterexample). -/
theorem C5_svg_amended :
    validType "svg" = some "image/svg+xml" ∧
    validType "svg+xml" = some "image/svg+xml" ∧
    ∀ (ev : Event) (o : Oracles) (b : List Nat),
      ¬ ev.originStatus = "404" → (imageTypeLookup ev).isSome → extOf ev = "svg" →
      o.s3 = .dataBody b →
      (handlerRun ev o).delivered = .res (okResp "image/svg+xml" (String.mk (base64Encode b))) ∧
      (handlerRun ev o).sharpCall = none := by
  refine ⟨rfl, rfl, ?_⟩
  intro ev o b h1 h2 hsvg hs3
  obtain ⟨prof, hp⟩ := Option.isSome_iff_exists.mp h2
  have h3 : (validType (extOf ev)).isSome := by rw [hsvg]; rfl
  rw [handlerRun_reach ev o prof h1 hp h3, s3Stage_dataBody ev prof o b hs3,
    bodyStage_svg ev prof o b hsvg]
  exact ⟨rfl, rfl⟩

/-- C5 witness: a concrete `svg` request passes the original bytes through. -/
theorem C5_svg_amended_w :
    (handlerRun evC5w oC5w).delivered =
      .res (okResp "image/svg+xml" (String.mk (base64Encode [60, 115]))) ∧
    (handlerRun evC5w oC5w).sharpCall = none :=
  C5_svg_amended.2.2 evC5w oC5w [60, 115] (by decide) (by decide) (by decide) rfl

/-- C5 counterexample: a request for `a.svg+xml` passes the extension check
but does not take the vector branch — Sharp is invoked and the delivered body
is the re-encoded `image/webp` output, not the original bytes with
`image/svg+xml`. -/
theorem C5_svg_cex :
    ¬ (handlerRun evC5 oC5).sharpCall = none ∧
    ¬ (handlerRun evC5 oC5).delivered =
        .res (okResp "image/svg+xml" (String.mk (base64Encode [1]))) ∧
    (handlerRun evC5 oC5).delivered =
      .res (okResp "image/webp" (String.mk (base64Encode [2]))) := by decide

/-- C6 (amended): after the checks, an S3 callback with no data object at all
(including non-not-found errors) yields the structured 500
`The file is not normal.` envelope, and a data object without a `Body` yields
the 404 Not Found envelope — the converse of the claim's mapping. -/
theorem C6_origin_body_amended (ev : Event) (o : Oracles)
    (h1 : ¬ ev.originStatus = "404") (h2 : (imageTypeLookup ev).isSome)
    (h3 : (validType (extOf ev)).isSome) :
    (o.s3 = .noData → (handlerRun ev o).delivered = .res fail500NotNormal) ∧
    (o.s3 = .dataNoBody → (handlerRun ev o).delivered = .res fail404Resp) ∧
    fail500NotNormal.status = "500" ∧
    fail500NotNormal.body =
      "\x7b\"errorCode\":\"500\",\"errorMsg\":\"The file is not normal.\"\x7d" ∧
    fail404Resp.status = "404" := by
  obtain ⟨prof, hp⟩ := Option.isSome_iff_exists.mp h2
  refine ⟨?_, ?_, rfl, rfl, rfl⟩ <;> intro hs3 <;>
    rw [handlerRun_reach ev o prof h1 hp h3] <;> unfold s3Stage <;> rw [hs3]

/-- C6 witness: the amended mapping at a concrete request. -/
theorem C6_origin_body_amended_w :
    (handlerRun evC6w ⟨.noData, none, .err⟩).delivered = .res fail500NotNormal :=
  (C6_origin_body_amended evC6w ⟨.noData, none, .err⟩ (by decide) (by decide) (by decide)).1 rfl

/-- C6 counterexample: a fetch that returned a data object with no usable
body is answered with 404 Not Found, not with the 500
`The file is not normal.` envelope the claim assigns to that case. -/
theorem C6_origin_body_cex :
    (handlerRun evC6 oC6).delivered = .res fail404Resp ∧
    fail404Resp.status = "404" ∧
    ¬ (handlerRun evC6 oC6).delivered = .res fail500NotNormal := by decide

/-- C7: an unknown profile name is answered with 404 and the exact body
`\x7b"errorCode":"404","errorMsg":"Not Found"\x7d`, for every extension and
every store state (the oracle `o` is universally quantified and the outcome
records that no fetch and no resize happened). -/
theorem C7_unknown_profile_404 (ev : Event) (o : Oracles)
    (h : imageTypeLookup ev = none) :
    handlerRun ev o = ⟨.res fail404Resp, none, none⟩ ∧
    fail404Resp.status = "404" ∧
    fail404Resp.body = "\x7b\"errorCode\":\"404\",\"errorMsg\":\"Not Found\"\x7d" := by
  refine ⟨?_, rfl, rfl⟩
  unfold handlerRun
  rw [h]
  split <;> rfl

/-- C7 witness: the scenario `/image/unknownprofile/x.png` from the spec. -/
theorem C7_unknown_profile_404_w :
    handlerRun evC7w oC7w = ⟨.res fail404Resp, none, none⟩ ∧
    fail404Resp.status = "404" ∧
    fail404Resp.body = "\x7b\"errorCode\":\"404\",\"errorMsg\":\"Not Found\"\x7d" :=
  C7_unknown_profile_404 evC7w oC7w (by decide)

/-- C8: with a non-404 upstream status and a known profile, an extension
missing from the supported table is answered with 403 and the exact body
`\x7b"errorCode":"403","errorMsg":"Unsupported extension."\x7d`, for every
store state — the outcome shows the fetch is never issued. -/
theorem C8_unsupported_ext_403 (ev : Event) (o : Oracles)
    (h1 : ¬ ev.originStatus = "404") (h2 : (imageTypeLookup ev).isSome)
    (h3 : validType (extOf ev) = none) :
    handlerRun ev o = ⟨.res fail403Resp, none, none⟩ ∧
    fail403Resp.status = "403" ∧
    fail403Resp.body = "\x7b\"errorCode\":\"403\",\"errorMsg\":\"Unsupported extension.\"\x7d" := by
  refine ⟨?_, rfl, rfl⟩
  obtain ⟨prof, hp⟩ := Option.isSome_iff_exists.mp h2
  unfold handlerRun
  rw [if_neg h1, hp, h3]

/-- C8 witness: the scenario `/image/original/picture.bmp` from the spec. -/
theorem C8_unsupported_ext_403_w :
    handlerRun evC8w oC8w = ⟨.res fail403Resp, none, none⟩ ∧
    fail403Resp.status = "403" ∧
    fail403Resp.body = "\x7b\"errorCode\":\"403\",\"errorMsg\":\"Unsupported extension.\"\x7d" :=
  C8_unsupported_ext_403 evC8w oC8w (by decide) (by decide) (by decide)

/-- C10: the store key and the redirect filename are the request path decoded
twice — `decodeURIComponent` on the whole path, then `decodeURI` on the
extracted filename — so for `/image/profile/a%2520b.png` the key actually
fetched (and placed in the redirect URL) is `a b.png`, which differs from the
once-decoded final segment `a%20b.png`. -/
theorem C10_double_decode :
    (∃ u : String,
      ¬ s3KeyOfUri u = onceDecodedBase u ∧ s3KeyOfUri u = redirectFilenameOfUri u) ∧
    (handlerRun evC10 oC10).s3Call =
      some (BUCKET_profile, s3KeyOfUri "/image/profile/a%2520b.png") ∧
    s3KeyOfUri "/image/profile/a%2520b.png" = "a b.png" ∧
    onceDecodedBase "/image/profile/a%2520b.png" = "a%20b.png" := by
  exact ⟨⟨"/image/profile/a%2520b.png", by decide, rfl⟩, by decide, by decide, by decide⟩

theorem sharpStage_sharpCall (ev : Event) (args : SharpArgs) (res : SharpResult) :
    (sharpStage ev args res).sharpCall = some args := by
  cases res with
  | err => rfl
  | ok rb =>
    by_cases h : (base64Encode rb).length > 1024 * 1024
    · rw [sharpStage_ok_over ev args rb h]
    · rw [sharpStage_ok_under ev args rb h]

theorem deliveredEnvelope_noTimer (ev : Event) (o : Oracles) (pMs : Nat) :
    deliveredEnvelope ev o pMs = (handlerRun ev o).delivered := by
  have hpend : timerPending handlerSyncEffects = false := rfl
  unfold deliveredEnvelope
  rw [if_neg]
  intro hc
  rw [hpend] at hc
  exact Bool.false_ne_true hc.1

def evC1w : Event := ⟨"/image/thumbnail/w.webp", "200", "OK", ""⟩

def oC1w : Oracles := ⟨.dataBody [1, 2, 3], some ⟨1, 1, "webp"⟩, .err⟩

def evC1 : Event := ⟨"/image/thumbnail/big.png", "200", "OK", ""⟩

def rbBig : List Nat := List.replicate 786433 0

def oC1 : Oracles := ⟨.dataBody [1, 2, 3], some ⟨4000, 3000, "png"⟩, .ok rbBig⟩

theorem rbBig_length : rbBig.length = 786433 := by
  unfold rbBig
  rw [List.length_replicate]

theorem rbBig_b64_length : (base64Encode rbBig).length = 1048580 := by
  rw [base64Encode_length, rbBig_length]

/-- C1 (amended): in both body-returning branches, a candidate body over the
ceiling is delivered as the 302 redirect (whose `Location` is the fallback
URL built from the profile name and the doubly-decoded filename) and never as
a 200 — but the two branches measure different quantities: the pass-through
branch compares the raw byte count with 1,048,576, while the resized branch
compares the length of the base64-encoded body, `4 * ceil(n / 3)` for `n` raw
bytes, so resized bodies of more than 786,432 raw bytes are redirected even
though their byte length is within the ceiling. -/
theorem C1_size_ceiling_amended (ev : Event) (o : Oracles) (prof : Dim2) (b : List Nat)
    (h1 : ¬ ev.originStatus = "404") (h2 : imageTypeLookup ev = some prof)
    (h3 : (validType (extOf ev)).isSome) (hsvg : ¬ extOf ev = "svg")
    (hs3 : o.s3 = .dataBody b) :
    (bypassCond o.probe prof = true →
      ((handlerRun ev o).delivered = .res (redirectResp ev) ↔ 1024 * 1024 < b.length)) ∧
    (bypassCond o.probe prof = false → ∀ rb, o.sharp = .ok rb →
      ((handlerRun ev o).delivered = .res (redirectResp ev) ↔
        1024 * 1024 < (base64Encode rb).length)) ∧
    (base64Encode b).length = 4 * ((b.length + 2) / 3) ∧
    (redirectResp ev).location = some (redirectLocation ev) := by
  rw [handlerRun_reach ev o prof h1 h2 h3, s3Stage_dataBody ev prof o b hs3]
  refine ⟨?_, ?_, base64Encode_length b, rfl⟩
  · intro hb
    by_cases hlen : b.length > 1024 * 1024
    · rw [bodyStage_bypass_over ev prof o b hsvg hb hlen]
      exact ⟨fun _ => hlen, fun _ => rfl⟩
    · rw [bodyStage_bypass_under ev prof o b hsvg hb hlen]
      exact ⟨fun hc => absurd hc (okResp_ne_redirect _ _ _), fun hc => absurd hc hlen⟩
  · intro hb rb hrb
    rw [bodyStage_noBypass ev prof o b hsvg hb, hrb]
    by_cases hlen : (base64Encode rb).length > 1024 * 1024
    · rw [sharpStage_ok_over ev _ rb hlen]
      exact ⟨fun _ => hlen, fun _ => rfl⟩
    · rw [sharpStage_ok_under ev _ rb hlen]
      exact ⟨fun hc => absurd hc (okResp_ne_redirect _ _ _), fun hc => absurd hc hlen⟩

/-- C1 witness: the pass-through ceiling test at a concrete small body. -/
theorem C1_size_ceiling_amended_w :
    (handlerRun evC1w oC1w).delivered = .res (redirectResp evC1w) ↔
      1024 * 1024 < ([1, 2, 3] : List Nat).length :=
  (C1_size_ceiling_amended evC1w oC1w ⟨some 300, some 300⟩ [1, 2, 3]
    (by decide) (by decide) (by decide) (by decide) rfl).1 (by decide)

/-- C1 counterexample: a resized body of 786,433 raw bytes does not exceed
the 1,048,576-byte ceiling, yet the delivered response is the 302 redirect,
because the resized branch measures the base64-encoded length (1,048,580)
instead of the byte length — the ceiling is not applied to the resized body's
byte length as the claim states. -/
theorem C1_size_ceiling_cex :
    rbBig.length ≤ 1024 * 1024 ∧
    (handlerRun evC1 oC1).delivered = .res (redirectResp evC1) := by
  constructor
  · rw [rbBig_length]
    decide
  · rw [handlerRun_reach evC1 oC1 ⟨some 300, some 300⟩ (by decide) (by decide) (by decide),
      s3Stage_dataBody evC1 _ oC1 [1, 2, 3] rfl,
      bodyStage_noBypass evC1 _ oC1 [1, 2, 3] (by decide) (by decide)]
    rw [show oC1.sharp = .ok rbBig from rfl]
    rw [sharpStage_ok_over evC1 _ rbBig (by rw [rbBig_b64_length]; decide)]

def evC3w : Event := ⟨"/image/thumbnail/s.webp", "200", "OK", ""⟩

def oC3w : Oracles := ⟨.dataBody [1, 2, 3], some ⟨100, 100, "webp"⟩, .err⟩

def evC3 : Event := ⟨"/image/thumbnail/a.webp", "200", "OK", ""⟩

def oC3 : Oracles := ⟨.dataBody [1, 2, 3], some ⟨400, 400, "webp"⟩, .ok [9]⟩

/-- C3 (amended): for a probed `webp` source, the pass-through (output bytes
equal to the source bytes, no codec call) happens exactly when the target box
strictly exceeds the probed size in at least one dimension — the upscale
case — subject to the size check; when the source equals or exceeds the
target box in both dimensions the handler invokes the codec and re-encodes. -/
theorem C3_no_upscale_amended (ev : Event) (o : Oracles) (prof : Dim2) (b : List Nat)
    (sz : ImgSize) (h1 : ¬ ev.originStatus = "404") (h2 : imageTypeLookup ev = some prof)
    (h3 : (validType (extOf ev)).isSome) (hsvg : ¬ extOf ev = "svg")
    (hs3 : o.s3 = .dataBody b) (hpr : o.probe = some sz) (hw : sz.typ = "webp") :
    ((optGT prof.x sz.width || optGT prof.y sz.height) = true →
      ¬ b.length > 1024 * 1024 →
      (handlerRun ev o).delivered = .res (okResp "image/webp" (String.mk (base64Encode b))) ∧
      (handlerRun ev o).sharpCall = none) ∧
    ((optGT prof.x sz.width || optGT prof.y sz.height) = false →
      (handlerRun ev o).sharpCall = some (sharpArgsOf prof b (extOf ev))) := by
  rw [handlerRun_reach ev o prof h1 h2 h3, s3Stage_dataBody ev prof o b hs3]
  have hbc : bypassCond o.probe prof = (optGT prof.x sz.width || optGT prof.y sz.height) := by
    rw [hpr]
    simp [bypassCond, hw]
  constructor
  · intro hup hlen
    rw [bodyStage_bypass_under ev prof o b hsvg (hbc.trans hup) hlen]
    exact ⟨rfl, rfl⟩
  · intro hdown
    rw [bodyStage_noBypass ev prof o b hsvg (hbc.trans hdown)]
    exact sharpStage_sharpCall ev _ o.sharp

/-- C3 witness: a 100×100 webp source requested at 300×300 (upscale would be
needed) is passed through byte-identically with no codec call. -/
theorem C3_no_upscale_amended_w :
    (handlerRun evC3w oC3w).delivered =
      .res (okResp "image/webp" (String.mk (base64Encode [1, 2, 3]))) ∧
    (handlerRun evC3w oC3w).sharpCall = none :=
  (C3_no_upscale_amended evC3w oC3w ⟨some 300, some 300⟩ [1, 2, 3] ⟨100, 100, "webp"⟩
    (by decide) (by decide) (by decide) (by decide) rfl rfl rfl).1 (by decide) (by decide)

/-- C3 counterexample: a 400×400 webp source requested at 300×300 equals or
exceeds the target box in both dimensions, yet the handler invokes the codec
(with the 300×300 box and `animated = true`) and delivers the re-encoded
bytes, not the source bytes — the opposite of the claimed no-recompression
pass-through. -/
theorem C3_no_upscale_cex :
    (handlerRun evC3 oC3).sharpCall = some ⟨[1, 2, 3], some 300, some 300, true⟩ ∧
    (handlerRun evC3 oC3).delivered =
      .res (okResp "image/webp" (String.mk (base64Encode [9]))) ∧
    ¬ (handlerRun evC3 oC3).delivered =
        .res (okResp "image/webp" (String.mk (base64Encode [1, 2, 3]))) := by decide

def evC4w : Event := ⟨"/image/original/p.png", "200", "OK", ""⟩

def oC4w : Oracles := ⟨.dataBody [7, 7, 7], some ⟨10, 10, "png"⟩, .ok [5]⟩

def evC4 : Event := ⟨"/image/original/a.png", "200", "OK", ""⟩

def oC4 : Oracles := ⟨.dataBody [8, 8], some ⟨10, 10, "png"⟩, .ok [5, 6]⟩

/-- C4 (amended): for the `original` profile (both targets `null`) with a
supported raster extension and a fetched body, the handler does not pass the
original bytes through: it always invokes the codec with `null`×`null`
targets (the bypass condition is false for `null` targets against any probed
size) and delivers the re-encoded output as `image/webp`, subject to the
size check on the base64-encoded output. -/
theorem C4_original_profile_amended (ev : Event) (o : Oracles) (b rb : List Nat)
    (h1 : ¬ ev.originStatus = "404") (h2 : imageTypeLookup ev = some ⟨none, none⟩)
    (h3 : (validType (extOf ev)).isSome) (hsvg : ¬ extOf ev = "svg")
    (hs3 : o.s3 = .dataBody b) (hsh : o.sharp = .ok rb)
    (hlen : ¬ (base64Encode rb).length > 1024 * 1024) :
    (handlerRun ev o).sharpCall = some (sharpArgsOf ⟨none, none⟩ b (extOf ev)) ∧
    (handlerRun ev o).delivered = .res (okResp "image/webp" (String.mk (base64Encode rb))) := by
  rw [handlerRun_reach ev o ⟨none, none⟩ h1 h2 h3, s3Stage_dataBody ev _ o b hs3,
    bodyStage_noBypass ev _ o b hsvg (bypassCond_nullTargets o.probe), hsh,
    sharpStage_ok_under ev _ rb hlen]
  exact ⟨rfl, rfl⟩

/-- C4 witness: a concrete `original`-profile png request goes through the
codec with `null` targets and comes back as `image/webp`. -/
theorem C4_original_profile_amended_w :
    (handlerRun evC4w oC4w).sharpCall =
      some (sharpArgsOf ⟨none, none⟩ [7, 7, 7] (extOf evC4w)) ∧
    (handlerRun evC4w oC4w).delivered =
      .res (okResp "image/webp" (String.mk (base64Encode [5]))) :=
  C4_original_profile_amended evC4w oC4w [7, 7, 7] [5]
    (by decide) (by decide) (by decide) (by decide) rfl rfl (by decide)

/-- C4 counterexample: for `/image/original/a.png` with a fetched body the
codec is invoked (so a resize/re-encode is performed) and the delivered 200
carries the codec output as `image/webp`, not the original bytes — under
either the original `image/png` content-type or the delivered one. -/
theorem C4_original_profile_cex :
    ¬ (handlerRun evC4 oC4).sharpCall = none ∧
    (handlerRun evC4 oC4).delivered =
      .res (okResp "image/webp" (String.mk (base64Encode [5, 6]))) ∧
    ¬ (handlerRun evC4 oC4).delivered =
        .res (okResp "image/webp" (String.mk (base64Encode [8, 8]))) ∧
    ¬ (handlerRun evC4 oC4).delivered =
        .res (okResp "image/png" (String.mk (base64Encode [8, 8]))) := by decide

theorem handlerRun_302_cc (ev : Event) (o : Oracles) (r : Resp)
    (h : (handlerRun ev o).delivered = .res r) (h302 : r.status = "302") :
    r.cacheControl = maxAgeValue := by
  unfold handlerRun s3Stage bodyStage sharpStage at h
  repeat' split at h
  all_goals try cases h
  all_goals first
    | rfl
    | exact absurd h302 (by decide)

def evC9w : Event := ⟨"/image/thumbnail/huge.webp", "200", "OK", ""⟩

def bBig : List Nat := List.replicate (1024 * 1024 + 1) 0

def oC9w : Oracles := ⟨.dataBody bBig, some ⟨1, 1, "webp"⟩, .err⟩

theorem bBig_length : bBig.length = 1024 * 1024 + 1 := by
  unfold bBig
  rw [List.length_replicate]

/-- C9: every 302 the program can deliver — by either size-limit branch or by
the timeout handler — derives from the success header set and so carries
`Cache-Control: max-age=31536000`, never the `no-cache` of the failure set. -/
theorem C9_redirect_cache_control (ev : Event) (o : Oracles) (pMs : Nat) (r : Resp)
    (h : deliveredEnvelope ev o pMs = .res r) (h302 : r.status = "302") :
    r.cacheControl = "max-age=31536000" ∧ ¬ r.cacheControl = "no-cache" ∧
    (timerRedirect ev).cacheControl = "max-age=31536000" := by
  have hcc : r.cacheControl = maxAgeValue := by
    unfold deliveredEnvelope at h
    split at h
    · injection h with h'
      rw [← h']
      rfl
    · exact handlerRun_302_cc ev o r h h302
  refine ⟨hcc, ?_, rfl⟩
  rw [hcc]
  decide

/-- C9 witness: a concrete oversized pass-through body is delivered as a 302
carrying `max-age=31536000`. -/
theorem C9_redirect_cache_control_w :
    (redirectResp evC9w).cacheControl = "max-age=31536000" ∧
    ¬ (redirectResp evC9w).cacheControl = "no-cache" ∧
    (timerRedirect evC9w).cacheControl = "max-age=31536000" :=
  C9_redirect_cache_control evC9w oC9w 0 (redirectResp evC9w)
    (by
      rw [deliveredEnvelope_noTimer,
        handlerRun_reach evC9w oC9w ⟨some 300, some 300⟩ (by decide) (by decide) (by decide),
        s3Stage_dataBody evC9w _ oC9w bBig rfl,
        bodyStage_bypass_over evC9w _ oC9w bBig (by decide) (by decide)
          (by rw [bBig_length]; decide)])
    rfl

end ImageResizer
